import Mathlib

/-!
Verification of the PrintFlow agent core (printflow_agent.py): the ESC/POS
raster encoder, the print-job dispatch handler, certificate provisioning,
network address discovery, and the CUPS raw spooling path.  Python byte
strings are modelled as lists of naturals below 256, images as a dimension
pair with a pixel lookup function, and OS or library effects (subprocess
outcomes, the resampling filter, the print spooler) as explicit parameters.
-/

deriving instance DecidableEq for Except

namespace PrintFlow

/-- ESC @ : printer reset command (module constant ESCPOS_INIT). -/
def ESCPOS_INIT : List Nat := [0x1B, 0x40]

/-- GS V 0 : paper cut command (module constant ESCPOS_CUT). -/
def ESCPOS_CUT : List Nat := [0x1D, 0x56, 0x00]

/-- GS v 0 0 : raster mode command (module constant ESCPOS_RASTER_START). -/
def ESCPOS_RASTER_START : List Nat := [0x1D, 0x76, 0x30, 0x00]

/-- Python str.endswith, on the character lists of the two strings. -/
def str_ends_with (s suffix : String) : Bool :=
  suffix.data.isSuffixOf s.data

/-- Python str.startswith, on the character lists of the two strings. -/
def str_starts_with (s pre : String) : Bool :=
  pre.data.isPrefixOf s.data

/-- A decoded monochrome PIL image in mode 1: pixel access returns 0 (black)
or 255 (white).  `pixels` is total; only arguments below `width`/`height`
are ever consulted by the encoder. -/
structure PILImage where
  width : Nat
  height : Nat
  pixels : Nat → Nat → Nat

/-- One iteration of the inner `for x in range(padded_width)` loop of
`PrinterManager._image_to_raster`.  State is (row_byte, bit_pos, raster_body).
The source sets the bit when `x < width and pixels[x, y] == 0`, then
decrements `bit_pos` and flushes the byte when it would go below 0; here the
flush test `bit_pos = 0` before decrementing is the same condition. -/
def rasterStep (img : PILImage) (y : Nat) (st : Nat × Nat × List Nat) (x : Nat) :
    Nat × Nat × List Nat :=
  let row_byte := if x < img.width && img.pixels x y == 0
    then st.1 ||| (1 <<< st.2.1) else st.1
  if st.2.1 = 0 then (0, 7, st.2.2 ++ [row_byte]) else (row_byte, st.2.1 - 1, st.2.2)

/-- The bytes one row `y` contributes to the raster body: the inner loop of
`_image_to_raster` run over `x in range(padded_width)` starting from
row_byte = 0, bit_pos = 7. -/
def rasterRow (img : PILImage) (padded_width y : Nat) : List Nat :=
  ((List.range padded_width).foldl (rasterStep img y) (0, 7, [])).2.2

/-- The raster body: the outer `for y in range(height)` loop, concatenating
the bytes of each row (row_byte and bit_pos are re-initialised per row in the
source, matching the fresh (0, 7, []) start of `rasterRow`). -/
def rasterBody (img : PILImage) (padded_width : Nat) : List Nat :=
  (List.range img.height).foldl (fun acc y => acc ++ rasterRow img padded_width y) []

/-- `PrinterManager._image_to_raster`.  The width is padded up to the next
multiple of 8; the padding background is white (the source pastes into a
fresh mode-1 image filled with 1) and the `x < width` guard keeps padding
bits clear, so the original pixel function suffices.  The Python expression
`bytes([width_low, width_high, height_low, height_high])` raises ValueError
when a value exceeds 255 (only the two high bytes can), modelled as `none`. -/
def imageToRaster (img : PILImage) : Option (List Nat) :=
  let width := img.width
  let height := img.height
  let padded_width := ((width + 7) / 8) * 8
  let bytes_per_row := padded_width / 8
  let width_low := bytes_per_row % 256
  let width_high := bytes_per_row / 256
  let height_low := height % 256
  let height_high := height / 256
  if width_high ≤ 255 && height_high ≤ 255 then
    some (ESCPOS_RASTER_START ++ [width_low, width_high, height_low, height_high] ++
      rasterBody img padded_width)
  else
    none

/-- `PrinterManager.print_image`, from the already decoded and thresholded
mode-1 image (decoding, luminance conversion and thresholding are PIL
library calls on the request bytes).  When the width exceeds 576 dots the
source resizes to width 576 and height `int(height * (576 / width))` with
the LANCZOS filter; the output pixels of the filter are the `resampled`
parameter, and the height arithmetic (a Python float product truncated by
int) is modelled exactly on the rationals as `height * 576 / width` in
natural floor division.  Returns the byte string handed to `print_raw`
together with the `with_cut` argument of that call, which the source
hardcodes to False; `none` models a raised exception from the encoder. -/
def print_image (img : PILImage) (resampled : Nat → Nat → Nat) (with_cut : Bool) :
    Option (List Nat × Bool) :=
  let max_width := 576
  let img2 := if max_width < img.width then
      PILImage.mk max_width (img.height * max_width / img.width) resampled
    else img
  match imageToRaster img2 with
  | none => none
  | some raster_data =>
    let output := ESCPOS_INIT ++ raster_data
    let output2 := if with_cut then output ++ ESCPOS_CUT else output
    some (output2, false)

/-! ### Base64 decoding

`handle_print` calls `base64.b64decode(raw_data)` with default arguments;
the defs below follow the CPython binascii.a2b_base64 routine in non-strict mode:
characters outside the alphabet are skipped, a pad ends decoding once a quad
has at least two data characters and enough pads, and a trailing partial
quad is an error (a special message when exactly one data character is left
over, otherwise incorrect padding). -/

/-- Value of one base64 alphabet character, `none` for characters outside
the alphabet (which non-strict decoding skips). -/
def b64table (c : Char) : Option Nat :=
  if 'A' ≤ c ∧ c ≤ 'Z' then some (c.toNat - 65)
  else if 'a' ≤ c ∧ c ≤ 'z' then some (c.toNat - 97 + 26)
  else if '0' ≤ c ∧ c ≤ '9' then some (c.toNat - 48 + 52)
  else if c = '+' then some 62
  else if c = '/' then some 63
  else none

/-- Decoder state: position within the current quad, pending bits, count of
consecutive pad characters, output so far, and whether a pad sequence has
terminated decoding. -/
structure B64State where
  quad_pos : Nat
  leftchar : Nat
  pads : Nat
  acc : List Nat
  finished : Bool

/-- One step of the non-strict base64 decoding loop. -/
def b64step (st : B64State) (c : Char) : B64State :=
  if st.finished then st
  else if c = '=' then
    if st.quad_pos ≥ 2 then
      if st.quad_pos + (st.pads + 1) ≥ 4 then { st with finished := true }
      else { st with pads := st.pads + 1 }
    else st
  else
    match b64table c with
    | none => st
    | some d =>
      match st.quad_pos with
      | 0 => ⟨1, d, 0, st.acc, st.finished⟩
      | 1 => ⟨2, d % 16, 0, st.acc ++ [(st.leftchar <<< 2) ||| (d >>> 4)], st.finished⟩
      | 2 => ⟨3, d % 4, 0, st.acc ++ [(st.leftchar <<< 4) ||| (d >>> 2)], st.finished⟩
      | _ => ⟨0, 0, 0, st.acc ++ [(st.leftchar <<< 6) ||| d], st.finished⟩

/-- `base64.b64decode` on a string, returning the decoded bytes or the
message of the decode exception. -/
def b64decode (s : String) : Except String (List Nat) :=
  let st := s.data.foldl b64step ⟨0, 0, 0, [], false⟩
  if st.finished then Except.ok st.acc
  else if st.quad_pos = 0 then Except.ok st.acc
  else if st.quad_pos = 1 then
    Except.error "Invalid base64-encoded string: number of data characters cannot be 1 more than a multiple of 4"
  else Except.error "Incorrect padding"

/-! ### The /print_raw handler and the print paths -/

/-- The JSON payload of a /print_raw request; `none` models an absent key.
The handler reads `printer_name` with no default, `raw_type` with default
"text" and `raw_data` with default "". -/
structure PrintPayload where
  printer_name : Option String
  raw_type : Option String
  raw_data : Option String

/-- A call into `PrinterManager` made by the handler: the image path, the
Windows shell PDF path (powershell Start-Process -Verb Print, no printer
name and no cut), or the raw path with its with_cut argument. -/
inductive PrintCall where
  | printImage (printer : String) (data : List Nat) (with_cut : Bool)
  | pdfShell (data : List Nat)
  | printRaw (printer : String) (data : List Nat) (with_cut : Bool)
deriving DecidableEq

/-- The JSON response: HTTP status, whether a success field is true, and
whether an error field is present. -/
structure HttpResponse where
  status : Nat
  ok : Bool
  hasError : Bool
deriving DecidableEq

/-- The once-per-job cut decision of `handle_print`:
apply_cut is auto_cut OR the raw_type string ends with _cut. -/
def apply_cut_rule (auto_cut : Bool) (raw_type : String) : Bool :=
  auto_cut || str_ends_with raw_type "_cut"

/-- The routing block of `handle_print`: image kinds go to `print_image`
with the cut decision, "pdf" goes to the shell on Windows or to `print_raw`
with with_cut hardcoded to False elsewhere, and every other kind goes to
`print_raw` with the cut decision. -/
def route_job (auto_cut isWindows : Bool) (printer raw_type : String)
    (data : List Nat) : PrintCall :=
  let apply_cut := apply_cut_rule auto_cut raw_type
  if raw_type = "image" ∨ raw_type = "image_cut" then
    PrintCall.printImage printer data apply_cut
  else if raw_type = "pdf" then
    if isWindows then PrintCall.pdfShell data
    else PrintCall.printRaw printer data false
  else
    PrintCall.printRaw printer data apply_cut

/-- `handle_print`: validation, base64 decoding, then routing.  `spool`
models the outcome of the dispatched `PrinterManager` call (`none` =
returned, `some msg` = raised); any exception inside the try block is
answered with HTTP 500 and an error field.  The second component is the
`PrinterManager` call that was attempted, `none` when none was. -/
def handle_print (auto_cut isWindows : Bool) (spool : PrintCall → Option String)
    (payload : PrintPayload) : HttpResponse × Option PrintCall :=
  let printer := payload.printer_name.getD ""
  let raw_type := payload.raw_type.getD "text"
  let raw_data := payload.raw_data.getD ""
  if printer = "" then (⟨400, false, true⟩, none)
  else if raw_data = "" then (⟨400, false, true⟩, none)
  else
    match b64decode raw_data with
    | Except.error _ => (⟨500, false, true⟩, none)
    | Except.ok data_bytes =>
      let call := route_job auto_cut isWindows printer raw_type data_bytes
      match spool call with
      | none => (⟨200, true, false⟩, some call)
      | some _ => (⟨500, false, true⟩, some call)

/-- The byte string a raw print call hands to the OS spooler: both platform
paths of `print_raw` first append the cut command when `with_cut` is set. -/
def print_raw_bytes (data : List Nat) (with_cut : Bool) : List Nat :=
  if with_cut then data ++ ESCPOS_CUT else data

/-- A spooler that always succeeds, for concrete evaluations. -/
def spoolOk : PrintCall → Option String := fun _ => none

/-! ### The CUPS raw printing path -/

/-- Outcome of the lp invocation through subprocess.run in `_print_raw_cups`:
it either completes with a return code and stderr text, or raises (for
example FileNotFoundError when the lp executable is absent). -/
inductive RunOutcome where
  | completed (returncode : Nat) (stderr : String)
  | raised (msg : String)
deriving DecidableEq

/-- Observable outcome of `PrinterManager._print_raw_cups`: the returned or
raised result, and whether `os.unlink` ran on the temporary file. -/
structure CupsOutcome where
  result : Except String Bool
  tempDeleted : Bool
deriving DecidableEq

/-- `PrinterManager._print_raw_cups`: append the cut command when requested,
write the bytes to a temporary file, submit it with lp, then `os.unlink` the
file and raise on a non-zero return code.  The unlink statement sits between
`subprocess.run` and the return-code check, with no finally block, so a
raising run skips it; the except clause logs and re-raises. -/
def print_raw_cups (data : List Nat) (with_cut : Bool) (run : RunOutcome) :
    CupsOutcome :=
  let _payload := print_raw_bytes data with_cut
  match run with
  | RunOutcome.raised msg =>
      { result := Except.error msg, tempDeleted := false }
  | RunOutcome.completed rc stderr =>
      if rc ≠ 0 then
        { result := Except.error (if stderr = "" then "lp command failed" else stderr),
          tempDeleted := true }
      else
        { result := Except.ok true, tempDeleted := true }

/-! ### Network address discovery -/

/-- `NetworkInfo.get_local_addresses`, as a function of what the three
discovery sub-methods report: `hostnameAddr` is the
`socket.gethostbyname(hostname)` result (`none` when it raises),
`interfaceAddrs` the stripped lines of the powershell query on Windows or
the tokens of `hostname -I` elsewhere (an empty list when the call raises),
and `routeAddr` the local endpoint of the probe connection to 8.8.8.8
(`none` when it raises).  Windows interface lines are kept when non-empty
and starting with neither 127. nor 169.254.; the non-Windows filter only
excludes 127. prefixes.  The hostname and route results are appended with
no filter at all.  `list(set(...))` is modelled by dedup; claims only
depend on membership. -/
def get_local_addresses (isWindows : Bool) (hostnameAddr : Option String)
    (interfaceAddrs : List String) (routeAddr : Option String) : List String :=
  let addresses : List String := match hostnameAddr with
    | some ip => [ip]
    | none => []
  let addresses := addresses ++ (if isWindows then
      interfaceAddrs.filter (fun ip =>
        ip ≠ "" && !str_starts_with ip "127." && !str_starts_with ip "169.254.")
    else
      interfaceAddrs.filter (fun ip => ip ≠ "" && !str_starts_with ip "127."))
  let addresses := addresses ++ (match routeAddr with
    | some ip => [ip]
    | none => [])
  addresses.dedup

/-! ### Certificate generation -/

/-- Python str.split on the dot separator, over a character list. -/
def split_on_dot : List Char → List (List Char)
  | [] => [[]]
  | c :: rest =>
    let r := split_on_dot rest
    if c = '.' then [] :: r
    else match r with
      | [] => [[c]]
      | h :: t => (c :: h) :: t

/-- Decimal value of a digit string. -/
def octet_value (cs : List Char) : Nat :=
  cs.foldl (fun n c => n * 10 + (c.toNat - 48)) 0

/-- Acceptance of one dotted octet by the Python ipaddress.IPv4Address rule:
one to three ASCII digits, no leading zero unless the octet is a single
digit, value at most 255. -/
def is_octet (cs : List Char) : Bool :=
  decide (0 < cs.length) && decide (cs.length ≤ 3) && cs.all Char.isDigit &&
  (decide (cs.length = 1) || decide (cs.headD ' ' ≠ '0')) &&
  decide (octet_value cs ≤ 255)

/-- Acceptance of a string by `ipaddress.IPv4Address`: exactly four dotted
octets. -/
def is_ipv4 (s : String) : Bool :=
  let parts := split_on_dot s.data
  decide (parts.length = 4) && parts.all is_octet

/-- A subject-alternative-name entry of the certificate. -/
inductive AltName where
  | dns (name : String)
  | ip (addr : String)
deriving DecidableEq

/-- The SAN list built by `CertificateManager.generate` on the primary
(cryptography library) path: DNS localhost, DNS hostname and IP 127.0.0.1,
then one IP entry per discovered address whose `ipaddress.IPv4Address`
parse succeeds; the try/except around the append silently skips the rest. -/
def cert_alt_names (hostname : String) (discovered : List String) : List AltName :=
  [AltName.dns "localhost", AltName.dns hostname, AltName.ip "127.0.0.1"] ++
    (discovered.filter is_ipv4).map AltName.ip

/-- The subjectAltName argument `CertificateManager._generate_with_openssl`
passes to the openssl command line: the fixed prefix followed by a comma
after which every discovered address is joined in unvalidated. -/
def openssl_san (hostname : String) (discovered : List String) : String :=
  let ips := String.intercalate "," (discovered.map (fun ip => "IP:" ++ ip))
  "subjectAltName=DNS:localhost,DNS:" ++ hostname ++ ",IP:127.0.0.1," ++ ips

/-- On-disk state of the two TLS artifacts, with abstract file contents. -/
structure CertState where
  certExists : Bool
  keyExists : Bool
  certContent : List Nat
  keyContent : List Nat
deriving DecidableEq

/-- Path of the persisted certificate (USER_DATA_DIR / server.crt). -/
def CERT_PATH : String := ".printflow/server.crt"

/-- Path of the persisted private key (USER_DATA_DIR / server.key). -/
def KEY_PATH : String := ".printflow/server.key"

/-- `CertificateManager.generate`: when both artifacts exist it returns
their paths with no filesystem write; otherwise it generates fresh material
(the random key and certificate bytes are the `fresh` parameter) and writes
both files.  Returns the new state and the returned path pair. -/
def certificate_generate (fresh : List Nat × List Nat) (s : CertState) :
    CertState × (String × String) :=
  if s.certExists && s.keyExists then (s, (CERT_PATH, KEY_PATH))
  else (⟨true, true, fresh.1, fresh.2⟩, (CERT_PATH, KEY_PATH))

/-! ### Concrete inputs used by witnesses and counterexamples -/

/-- Constant all-black 1-by-1 source image (pixel value 0). -/
def blackPixel1x1 : PILImage := ⟨1, 1, fun _ _ => 0⟩

/-- Constant all-white 1-by-1 source image (pixel value 255). -/
def whitePixel1x1 : PILImage := ⟨1, 1, fun _ _ => 255⟩

/-- A 600 dot wide, 2 row tall all-black decoded image. -/
def wideImage600 : PILImage := ⟨600, 2, fun _ _ => 0⟩

/-- An all-white resampling result for the downscale step. -/
def resampledWhite : Nat → Nat → Nat := fun _ _ => 255

/-- Decoded bytes of the base64 string SEVMTE8= (ASCII HELLO). -/
def helloBytes : List Nat := [72, 69, 76, 76, 79]

/-! ## Theorems -/

/-- Eight consecutive loop iterations starting at bit_pos 7 flush exactly one
byte and return to bit_pos 7. -/
theorem foldl_rasterStep_eight (img : PILImage) (y x0 : Nat) (acc : List Nat) :
    ∃ w, (List.range' x0 8).foldl (rasterStep img y) (0, 7, acc) = (0, 7, acc ++ [w]) :=
  ⟨_, rfl⟩

/-- Over `8 * k` iterations the inner loop emits exactly `k` bytes. -/
theorem rasterStep_foldl_length (img : PILImage) (y : Nat) :
    ∀ (k x0 : Nat) (acc : List Nat),
      ((((List.range' x0 (8 * k)).foldl (rasterStep img y) (0, 7, acc)).2.2)).length =
        acc.length + k := by
  intro k
  induction k with
  | zero => intro x0 acc; simp
  | succ n ih =>
    intro x0 acc
    have h8 : 8 * (n + 1) = 8 * n + 8 := by ring
    rw [h8, ← List.range'_append_1 x0 8 (8 * n), List.foldl_append]
    obtain ⟨w, hw⟩ := foldl_rasterStep_eight img y x0 acc
    rw [hw, ih (x0 + 8) (acc ++ [w])]
    simp; omega

/-- Each row of a width-`8 * k` raster contributes `k` bytes. -/
theorem rasterRow_length (img : PILImage) (k y : Nat) :
    (rasterRow img (8 * k) y).length = k := by
  unfold rasterRow
  rw [List.range_eq_range']
  simpa using rasterStep_foldl_length img y k 0 []

theorem rasterBody_foldl_length (img : PILImage) (k : Nat) (l : List Nat) :
    ∀ acc : List Nat,
      ((l.foldl (fun acc y => acc ++ rasterRow img (8 * k) y) acc)).length =
        acc.length + l.length * k := by
  induction l with
  | nil => intro acc; simp
  | cons y ys ih =>
    intro acc
    simp only [List.foldl_cons, ih (acc ++ rasterRow img (8 * k) y)]
    simp [rasterRow_length]
    ring

/-- The raster body of a width-`8 * k` image has `height * k` bytes. -/
theorem rasterBody_length (img : PILImage) (k : Nat) :
    (rasterBody img (8 * k)).length = img.height * k := by
  unfold rasterBody
  simpa using rasterBody_foldl_length img k (List.range img.height) []

/-- C1: whenever `_image_to_raster` produces output, the 8-byte header
(4 raster-mode bytes then 4 dimension bytes) encodes a byte-width equal to
ceil(width / 8) and the image height, each split into little-endian low/high
bytes that reconstruct the original value, and the raster body that follows
has length exactly byte-width times height. -/
theorem raster_header_dims (img : PILImage) (out : List Nat)
    (h : imageToRaster img = some out) :
    ∃ body : List Nat,
      out = ESCPOS_RASTER_START ++
        [((img.width + 7) / 8) % 256, ((img.width + 7) / 8) / 256,
         img.height % 256, img.height / 256] ++ body ∧
      ((img.width + 7) / 8) % 256 + 256 * (((img.width + 7) / 8) / 256) =
        (img.width + 7) / 8 ∧
      img.height % 256 + 256 * (img.height / 256) = img.height ∧
      body.length = ((img.width + 7) / 8) * img.height := by
  unfold imageToRaster at h
  simp only at h
  split at h
  case isFalse => exact absurd h (by simp)
  case isTrue hcond =>
    have hout := (Option.some.injEq _ _).mp h
    have hpad : ((img.width + 7) / 8) * 8 = 8 * ((img.width + 7) / 8) :=
      Nat.mul_comm _ _
    have hbpr : ((img.width + 7) / 8) * 8 / 8 = (img.width + 7) / 8 :=
      Nat.mul_div_cancel _ (by omega)
    refine ⟨rasterBody img (((img.width + 7) / 8) * 8), ?_, Nat.mod_add_div _ _,
      Nat.mod_add_div _ _, ?_⟩
    · rw [← hout, hbpr]
    · rw [hpad, rasterBody_length, Nat.mul_comm]

/-- C1 witness: the 1-by-1 all-black image evaluates the header/body shape
concretely. -/
theorem raster_header_dims_witness :
    ∃ body : List Nat,
      [0x1D, 0x76, 0x30, 0x00, 1, 0, 1, 0, 128] = ESCPOS_RASTER_START ++
        [((blackPixel1x1.width + 7) / 8) % 256, ((blackPixel1x1.width + 7) / 8) / 256,
         blackPixel1x1.height % 256, blackPixel1x1.height / 256] ++ body ∧
      ((blackPixel1x1.width + 7) / 8) % 256 +
          256 * (((blackPixel1x1.width + 7) / 8) / 256) =
        (blackPixel1x1.width + 7) / 8 ∧
      blackPixel1x1.height % 256 + 256 * (blackPixel1x1.height / 256) =
        blackPixel1x1.height ∧
      body.length = ((blackPixel1x1.width + 7) / 8) * blackPixel1x1.height :=
  raster_header_dims blackPixel1x1 [0x1D, 0x76, 0x30, 0x00, 1, 0, 1, 0, 128] (by decide)

/-- C4: the 1-by-1 all-black image encodes to a single body byte with bit 7
(most significant) set and bits 0 to 6 clear (the white right-padding), and
the 1-by-1 all-white image encodes to the single body byte 0. -/
theorem raster_1x1_roundtrip :
    imageToRaster blackPixel1x1 =
      some (ESCPOS_RASTER_START ++ [1, 0, 1, 0] ++ [128]) ∧
    Nat.testBit 128 7 = true ∧
    (∀ i, i < 7 → Nat.testBit 128 i = false) ∧
    imageToRaster whitePixel1x1 =
      some (ESCPOS_RASTER_START ++ [1, 0, 1, 0] ++ [0]) := by
  refine ⟨by decide, by decide, ?_, by decide⟩
  decide

/-- Whenever `handle_print` reaches a `PrinterManager` call, validation and
decoding succeeded and the call is the routed one. -/
theorem handle_print_dispatch_eq (auto_cut isWindows : Bool)
    (spool : PrintCall → Option String) (payload : PrintPayload) (call : PrintCall)
    (h : (handle_print auto_cut isWindows spool payload).2 = some call) :
    ∃ data, b64decode (payload.raw_data.getD "") = Except.ok data ∧
      call = route_job auto_cut isWindows (payload.printer_name.getD "")
        (payload.raw_type.getD "text") data := by
  unfold handle_print at h
  simp only at h
  split at h
  · simp at h
  split at h
  · simp at h
  split at h
  next heq => simp at h
  next data heq =>
    refine ⟨data, heq, ?_⟩
    split at h <;> simpa using h.symm

/-- C2 counterexample: with the auto-cut flag enabled, the cut decision of a
pdf job is true under the once-per-job rule, yet the handler dispatches the
raw send with with_cut disabled, so the transmitted bytes carry no cut. -/
theorem cut_uniformity_cex :
    apply_cut_rule true "pdf" = true ∧
    (handle_print true false spoolOk
        ⟨some "Receipt", some "pdf", some "SEVMTE8="⟩).2 =
      some (PrintCall.printRaw "Receipt" helloBytes false) ∧
    print_raw_bytes helloBytes false = helloBytes :=
  ⟨by decide, by decide, by decide⟩

/-- C2 amended: the cut decision is computed once per job as (auto-cut OR
raw_type ends with _cut) and governs the image and raw/text paths, but the
pdf path does not receive it: it either prints through the Windows shell or
sends raw bytes with the cut parameter disabled. -/
theorem cut_rule_per_path (auto_cut isWindows : Bool)
    (spool : PrintCall → Option String) (payload : PrintPayload) (call : PrintCall)
    (h : (handle_print auto_cut isWindows spool payload).2 = some call) :
    ((payload.raw_type.getD "text" = "image" ∨
        payload.raw_type.getD "text" = "image_cut") →
      ∃ p d, call = PrintCall.printImage p d
        (apply_cut_rule auto_cut (payload.raw_type.getD "text"))) ∧
    ((payload.raw_type.getD "text" ≠ "image" ∧
        payload.raw_type.getD "text" ≠ "image_cut" ∧
        payload.raw_type.getD "text" ≠ "pdf") →
      ∃ p d, call = PrintCall.printRaw p d
        (apply_cut_rule auto_cut (payload.raw_type.getD "text"))) ∧
    (payload.raw_type.getD "text" = "pdf" →
      (∃ d, call = PrintCall.pdfShell d) ∨
        ∃ p d, call = PrintCall.printRaw p d false) := by
  obtain ⟨data, _, hcall⟩ :=
    handle_print_dispatch_eq auto_cut isWindows spool payload call h
  subst hcall
  unfold route_job
  refine ⟨fun himg => ?_, fun hother => ?_, fun hpdf => ?_⟩
  · rw [if_pos himg]
    exact ⟨_, _, rfl⟩
  · rw [if_neg (by tauto), if_neg hother.2.2]
    exact ⟨_, _, rfl⟩
  · rw [if_neg (by rw [hpdf]; rintro (hc | hc) <;> simp at hc), if_pos hpdf]
    cases isWindows
    · exact Or.inr ⟨_, _, rfl⟩
    · exact Or.inl ⟨_, rfl⟩

/-- C2 amended witness: a concrete text job is dispatched with the
once-per-job cut decision. -/
theorem cut_rule_per_path_witness :
    (("text" : String) = "image" ∨ ("text" : String) = "image_cut" →
      ∃ p d, PrintCall.printRaw "Receipt" helloBytes (apply_cut_rule true "text") =
        PrintCall.printImage p d (apply_cut_rule true "text")) ∧
    ((("text" : String) ≠ "image" ∧ ("text" : String) ≠ "image_cut" ∧
        ("text" : String) ≠ "pdf") →
      ∃ p d, PrintCall.printRaw "Receipt" helloBytes (apply_cut_rule true "text") =
        PrintCall.printRaw p d (apply_cut_rule true "text")) ∧
    (("text" : String) = "pdf" →
      (∃ d, PrintCall.printRaw "Receipt" helloBytes (apply_cut_rule true "text") =
        PrintCall.pdfShell d) ∨
        ∃ p d, PrintCall.printRaw "Receipt" helloBytes (apply_cut_rule true "text") =
          PrintCall.printRaw p d false) := by
  have h := cut_rule_per_path true false spoolOk
    ⟨some "Receipt", some "text", some "SEVMTE8="⟩
    (PrintCall.printRaw "Receipt" helloBytes (apply_cut_rule true "text")) (by decide)
  simp only [Option.getD] at h
  exact h

/-- C3 counterexample: a request whose raw_data is not valid base64 (one
data character) is answered with HTTP 500, not the 400 the claim states. -/
theorem bad_base64_status_cex :
    (handle_print false false spoolOk ⟨some "Receipt", some "text", some "A"⟩).1.status
      = 500 ∧
    ¬ (handle_print false false spoolOk ⟨some "Receipt", some "text", some "A"⟩).1.status
      = 400 :=
  ⟨by decide, by decide⟩

/-- C3 amended: a missing printer_name or a missing or empty raw_data is
answered with HTTP 400 and an error field before any printer call is
attempted; a raw_data that fails base64 decoding is also answered before any
printer call and with an error field, but with HTTP 500 (the decode
exception is caught by the generic handler), not 400. -/
theorem validation_fail_fast (auto_cut isWindows : Bool)
    (spool : PrintCall → Option String) (payload : PrintPayload) :
    (payload.printer_name.getD "" = "" →
      handle_print auto_cut isWindows spool payload = (⟨400, false, true⟩, none)) ∧
    (payload.printer_name.getD "" ≠ "" → payload.raw_data.getD "" = "" →
      handle_print auto_cut isWindows spool payload = (⟨400, false, true⟩, none)) ∧
    (∀ msg, payload.printer_name.getD "" ≠ "" → payload.raw_data.getD "" ≠ "" →
      b64decode (payload.raw_data.getD "") = Except.error msg →
      handle_print auto_cut isWindows spool payload = (⟨500, false, true⟩, none)) := by
  refine ⟨fun h1 => ?_, fun h1 h2 => ?_, fun msg h1 h2 h3 => ?_⟩
  · unfold handle_print
    rw [if_pos h1]
  · unfold handle_print
    rw [if_neg h1, if_pos h2]
  · unfold handle_print
    rw [if_neg h1, if_neg h2]
    simp only [h3]

/-- C3 amended witness: the three validation outcomes at concrete requests:
absent printer_name, empty raw_data, and malformed base64. -/
theorem validation_fail_fast_witness :
    handle_print false false spoolOk ⟨none, some "text", some "SEVMTE8="⟩ =
      (⟨400, false, true⟩, none) ∧
    handle_print false false spoolOk ⟨some "Receipt", some "text", none⟩ =
      (⟨400, false, true⟩, none) ∧
    handle_print false false spoolOk ⟨some "Receipt", some "text", some "A"⟩ =
      (⟨500, false, true⟩, none) :=
  ⟨(validation_fail_fast false false spoolOk _).1 (by decide),
   (validation_fail_fast false false spoolOk _).2.1 (by decide) (by decide),
   (validation_fail_fast false false spoolOk _).2.2
     "Invalid base64-encoded string: number of data characters cannot be 1 more than a multiple of 4"
     (by decide) (by decide) (by decide)⟩

/-- C10: any raw_type outside image, image_cut and pdf (including the
default "text" taken when the field is absent) passes validation, is routed
to the raw print path with the decoded bytes, and the dispatched with_cut
flag is the once-per-job decision; the raw path appends the cut command to
the transmitted bytes exactly when that flag is set. -/
theorem unknown_type_raw_routing (auto_cut isWindows : Bool)
    (spool : PrintCall → Option String) (payload : PrintPayload) (data : List Nat)
    (hdec : b64decode (payload.raw_data.getD "") = Except.ok data)
    (hpn : payload.printer_name.getD "" ≠ "")
    (hrd : payload.raw_data.getD "" ≠ "")
    (h1 : payload.raw_type.getD "text" ≠ "image")
    (h2 : payload.raw_type.getD "text" ≠ "image_cut")
    (h3 : payload.raw_type.getD "text" ≠ "pdf") :
    (handle_print auto_cut isWindows spool payload).2 =
      some (PrintCall.printRaw (payload.printer_name.getD "") data
        (apply_cut_rule auto_cut (payload.raw_type.getD "text"))) ∧
    ∀ b : Bool, print_raw_bytes data b = data ++ ESCPOS_CUT ↔ b = true := by
  constructor
  · unfold handle_print
    rw [if_neg hpn, if_neg hrd]
    simp only [hdec]
    have hroute : route_job auto_cut isWindows (payload.printer_name.getD "")
        (payload.raw_type.getD "text") data =
        PrintCall.printRaw (payload.printer_name.getD "") data
          (apply_cut_rule auto_cut (payload.raw_type.getD "text")) := by
      unfold route_job
      rw [if_neg (by tauto), if_neg h3]
    rw [hroute]
    split <;> rfl
  · intro b
    cases b
    · simp only [print_raw_bytes, if_neg (Bool.false_ne_true)]
      constructor
      · intro hcontra
        have := congrArg List.length hcontra
        simp [ESCPOS_CUT] at this
      · intro hcontra; exact absurd hcontra (Bool.false_ne_true)
    · simp [print_raw_bytes]

/-- C10 witness: a job of the unrecognized kind label_cut is routed through
the raw path with the cut flag set by the suffix rule. -/
theorem unknown_type_raw_routing_witness :
    (handle_print false false spoolOk
        ⟨some "Receipt", some "label_cut", some "SEVMTE8="⟩).2 =
      some (PrintCall.printRaw "Receipt" helloBytes (apply_cut_rule false "label_cut")) ∧
    ∀ b : Bool, print_raw_bytes helloBytes b = helloBytes ++ ESCPOS_CUT ↔ b = true :=
  unknown_type_raw_routing false false spoolOk
    ⟨some "Receipt", some "label_cut", some "SEVMTE8="⟩ helloBytes
    (by decide) (by decide) (by decide) (by decide) (by decide) (by decide)

/-- C5: an image_cut job whose decoded image is 600 dots wide is dispatched
to the image path with the cut decision true; the encoder downscales to
width 576 (height scaled by 576/600 and truncated), the buffer handed to the
raw send is the reset command, the raster, then exactly one appended cut
command, and the own cut parameter of the raw send is false so it appends no
second one. -/
theorem image_cut_600_single_cut (auto_cut isWindows : Bool)
    (spool : PrintCall → Option String) (pn rd : String) (data : List Nat)
    (img : PILImage) (resampled : Nat → Nat → Nat)
    (hpn : pn ≠ "") (hrd : rd ≠ "") (hdec : b64decode rd = Except.ok data)
    (hw : img.width = 600) (hh : img.height ≤ 65535) :
    (handle_print auto_cut isWindows spool ⟨some pn, some "image_cut", some rd⟩).2 =
      some (PrintCall.printImage pn data true) ∧
    ∃ raster,
      imageToRaster (PILImage.mk 576 (img.height * 576 / 600) resampled) =
        some raster ∧
      print_image img resampled true =
        some ((ESCPOS_INIT ++ raster) ++ ESCPOS_CUT, false) ∧
      print_raw_bytes ((ESCPOS_INIT ++ raster) ++ ESCPOS_CUT) false =
        (ESCPOS_INIT ++ raster) ++ ESCPOS_CUT := by
  have hcut : apply_cut_rule auto_cut "image_cut" = true := by
    unfold apply_cut_rule
    rw [show str_ends_with "image_cut" "_cut" = true from by decide, Bool.or_true]
  have hh2 : img.height * 576 / 600 ≤ 65535 := by
    have hstep : img.height * 576 / 600 ≤ img.height * 600 / 600 :=
      Nat.div_le_div_right (Nat.mul_le_mul_left _ (by omega))
    rw [Nat.mul_div_cancel _ (by omega)] at hstep
    omega
  have hhigh : img.height * 576 / 600 / 256 ≤ 255 := by
    have h3 : img.height * 576 / 600 / 256 ≤ 65535 / 256 :=
      Nat.div_le_div_right hh2
    norm_num at h3
    exact h3
  have himg : imageToRaster (PILImage.mk 576 (img.height * 576 / 600) resampled) =
      some (ESCPOS_RASTER_START ++
        [72, 0, img.height * 576 / 600 % 256, img.height * 576 / 600 / 256] ++
        rasterBody (PILImage.mk 576 (img.height * 576 / 600) resampled) 576) := by
    unfold imageToRaster
    simp only
    split
    case isTrue => rfl
    case isFalse hfalse =>
      refine absurd ?_ hfalse
      simp only [Bool.and_eq_true, decide_eq_true_eq]
      exact ⟨by norm_num, hhigh⟩
  refine ⟨?_, _, himg, ?_, rfl⟩
  · unfold handle_print
    simp only [Option.getD]
    rw [if_neg hpn, if_neg hrd]
    simp only [hdec]
    have hroute : route_job auto_cut isWindows pn "image_cut" data =
        PrintCall.printImage pn data true := by
      unfold route_job
      rw [if_pos (Or.inr rfl), hcut]
    rw [hroute]
    split <;> rfl
  · have h1 : print_image img resampled true =
        match imageToRaster (if 576 < img.width then
            PILImage.mk 576 (img.height * 576 / img.width) resampled else img) with
        | none => none
        | some rd => some ((ESCPOS_INIT ++ rd) ++ ESCPOS_CUT, false) := rfl
    have h2 : (if 576 < img.width then
        PILImage.mk 576 (img.height * 576 / img.width) resampled else img) =
        PILImage.mk 576 (img.height * 576 / 600) resampled := by
      rw [hw]
      simp
    rw [h1, h2, himg]

/-- C5 witness: the concrete 600 by 2 image is downscaled to 576 by 1 and
transmitted with a single appended cut. -/
theorem image_cut_600_single_cut_witness :
    (handle_print false false spoolOk
        ⟨some "Receipt", some "image_cut", some "SEVMTE8="⟩).2 =
      some (PrintCall.printImage "Receipt" helloBytes true) ∧
    ∃ raster,
      imageToRaster (PILImage.mk 576 (wideImage600.height * 576 / 600) resampledWhite) =
        some raster ∧
      print_image wideImage600 resampledWhite true =
        some ((ESCPOS_INIT ++ raster) ++ ESCPOS_CUT, false) ∧
      print_raw_bytes ((ESCPOS_INIT ++ raster) ++ ESCPOS_CUT) false =
        (ESCPOS_INIT ++ raster) ++ ESCPOS_CUT :=
  image_cut_600_single_cut false false spoolOk "Receipt" "SEVMTE8=" helloBytes
    wideImage600 resampledWhite (by decide) (by decide) (by decide) (by decide)
    (by decide)

/-- C6 counterexample: a discovered address that does not parse as IPv4 is
not skipped by the OpenSSL fallback generator: it is passed verbatim into
the subjectAltName parameter of the certificate command. -/
theorem openssl_san_unfiltered_cex :
    is_ipv4 "bogus" = false ∧
    openssl_san "myhost" ["bogus"] =
      "subjectAltName=DNS:localhost,DNS:myhost,IP:127.0.0.1,IP:bogus" :=
  ⟨by decide, by decide⟩

/-- C6 amended: on the primary generation path the SAN list always contains
DNS localhost, the DNS host name and IP 127.0.0.1 whatever AddressDiscovery
returns, contains an IP entry for every discovered address that parses as
IPv4, and contains no IP entry for a non-parsing address (those are skipped
silently); the OpenSSL fallback instead passes every discovered address into
the subjectAltName parameter unvalidated. -/
theorem san_entries (hostname : String) (discovered : List String) :
    AltName.dns "localhost" ∈ cert_alt_names hostname discovered ∧
    AltName.dns hostname ∈ cert_alt_names hostname discovered ∧
    AltName.ip "127.0.0.1" ∈ cert_alt_names hostname discovered ∧
    (∀ a ∈ discovered, is_ipv4 a = true →
      AltName.ip a ∈ cert_alt_names hostname discovered) ∧
    (∀ a, is_ipv4 a = false →
      AltName.ip a ∉ cert_alt_names hostname discovered) ∧
    openssl_san hostname discovered =
      "subjectAltName=DNS:localhost,DNS:" ++ hostname ++ ",IP:127.0.0.1," ++
        String.intercalate "," (discovered.map (fun ip => "IP:" ++ ip)) := by
  unfold cert_alt_names
  refine ⟨by simp, by simp, by simp, fun a ha hip => ?_, fun a hip hmem => ?_, rfl⟩
  · simp only [List.mem_append, List.mem_map]
    exact Or.inr ⟨a, List.mem_filter.mpr ⟨ha, hip⟩, rfl⟩
  · simp only [List.mem_append, List.mem_cons, List.mem_map,
      List.not_mem_nil, or_false] at hmem
    rcases hmem with ((hc | hc | hc) | ⟨b, hb, hba⟩)
    · exact absurd hc (by simp)
    · exact absurd hc (by simp)
    · rw [(AltName.ip.injEq _ _).mp hc] at hip
      exact absurd hip (by decide)
    · have hb2 := (List.mem_filter.mp hb).2
      rw [(AltName.ip.injEq _ _).mp hba] at hb2
      rw [hb2] at hip
      exact absurd hip (by decide)

/-- C6 amended witness: with one parsing and one non-parsing discovered
address, the SAN list keeps the base entries and the parsing address and
omits the non-parsing one. -/
theorem san_entries_witness :
    AltName.dns "localhost" ∈ cert_alt_names "myhost" ["10.0.0.5", "bogus"] ∧
    AltName.dns "myhost" ∈ cert_alt_names "myhost" ["10.0.0.5", "bogus"] ∧
    AltName.ip "127.0.0.1" ∈ cert_alt_names "myhost" ["10.0.0.5", "bogus"] ∧
    AltName.ip "10.0.0.5" ∈ cert_alt_names "myhost" ["10.0.0.5", "bogus"] ∧
    AltName.ip "bogus" ∉ cert_alt_names "myhost" ["10.0.0.5", "bogus"] :=
  ⟨(san_entries "myhost" ["10.0.0.5", "bogus"]).1,
   (san_entries "myhost" ["10.0.0.5", "bogus"]).2.1,
   (san_entries "myhost" ["10.0.0.5", "bogus"]).2.2.1,
   (san_entries "myhost" ["10.0.0.5", "bogus"]).2.2.2.1 "10.0.0.5" (by decide)
     (by decide),
   (san_entries "myhost" ["10.0.0.5", "bogus"]).2.2.2.2.1 "bogus" (by decide)⟩

/-- C7: when both TLS artifacts exist on disk, `CertificateManager.generate`
returns the fixed paths without touching the state, and a second call does
the same: identical paths, unchanged file contents, whatever fresh material
the generation branch would have used. -/
theorem certificate_generate_idempotent (s : CertState)
    (h1 : s.certExists = true) (h2 : s.keyExists = true)
    (f1 f2 : List Nat × List Nat) :
    certificate_generate f1 s = (s, (CERT_PATH, KEY_PATH)) ∧
    certificate_generate f2 (certificate_generate f1 s).1 =
      (s, (CERT_PATH, KEY_PATH)) ∧
    (certificate_generate f2 (certificate_generate f1 s).1).1.certContent =
      s.certContent ∧
    (certificate_generate f2 (certificate_generate f1 s).1).1.keyContent =
      s.keyContent := by
  have hc : (s.certExists && s.keyExists) = true := by rw [h1, h2]; rfl
  unfold certificate_generate
  rw [if_pos hc]
  rw [if_pos hc]
  exact ⟨rfl, rfl, rfl, rfl⟩

/-- C7 witness: two calls on a state where both artifacts exist, with
different fresh material each time. -/
theorem certificate_generate_idempotent_witness :
    certificate_generate ([3], [4]) ⟨true, true, [1], [2]⟩ =
      (⟨true, true, [1], [2]⟩, (CERT_PATH, KEY_PATH)) ∧
    certificate_generate ([5], [6])
        (certificate_generate ([3], [4]) ⟨true, true, [1], [2]⟩).1 =
      (⟨true, true, [1], [2]⟩, (CERT_PATH, KEY_PATH)) ∧
    (certificate_generate ([5], [6])
        (certificate_generate ([3], [4]) ⟨true, true, [1], [2]⟩).1).1.certContent =
      (⟨true, true, [1], [2]⟩ : CertState).certContent ∧
    (certificate_generate ([5], [6])
        (certificate_generate ([3], [4]) ⟨true, true, [1], [2]⟩).1).1.keyContent =
      (⟨true, true, [1], [2]⟩ : CertState).keyContent :=
  certificate_generate_idempotent ⟨true, true, [1], [2]⟩ rfl rfl ([3], [4]) ([5], [6])

/-- C8 counterexample: when hostname resolution reports the loopback address
127.0.1.1 (the common Debian /etc/hosts configuration), the result of
`get_local_addresses` contains it: the hostname sub-method is unfiltered. -/
theorem local_addresses_loopback_cex :
    "127.0.1.1" ∈ get_local_addresses false (some "127.0.1.1") [] none ∧
    str_starts_with "127.0.1.1" "127." = true :=
  ⟨by decide, by decide⟩

/-- C8 amended: membership in the result of `get_local_addresses` is exactly
a hostname-resolution report, an interface report surviving the platform
filter (non-empty, not 127.*, and on Windows also not 169.254.*), or a
default-route report; the hostname and route sub-methods are unfiltered, so
only the interface sub-method can never contribute a loopback address. -/
theorem local_addresses_membership (isWindows : Bool) (hostnameAddr : Option String)
    (interfaceAddrs : List String) (routeAddr : Option String) (a : String) :
    a ∈ get_local_addresses isWindows hostnameAddr interfaceAddrs routeAddr ↔
      (hostnameAddr = some a ∨
       (a ∈ interfaceAddrs ∧ a ≠ "" ∧ str_starts_with a "127." = false ∧
         (isWindows = true → str_starts_with a "169.254." = false)) ∨
       routeAddr = some a) := by
  unfold get_local_addresses
  cases isWindows <;> cases hostnameAddr <;> cases routeAddr <;>
    simp [List.mem_dedup, List.mem_filter, Bool.and_eq_true, Bool.not_eq_true',
      and_assoc] <;>
    aesop

/-- C8 amended witness: the membership characterization at a concrete
routable address reported by the default-route probe. -/
theorem local_addresses_membership_witness :
    "192.168.1.7" ∈ get_local_addresses false none ["192.168.1.7"] (some "192.168.1.7") ↔
      (none = some "192.168.1.7" ∨
       ("192.168.1.7" ∈ ["192.168.1.7"] ∧ "192.168.1.7" ≠ "" ∧
         str_starts_with "192.168.1.7" "127." = false ∧
         (false = true → str_starts_with "192.168.1.7" "169.254." = false)) ∨
       some "192.168.1.7" = some "192.168.1.7") :=
  local_addresses_membership false none ["192.168.1.7"] (some "192.168.1.7")
    "192.168.1.7"

/-- C9 counterexample: when the lp submission call raises (for example the
executable is missing), `_print_raw_cups` re-raises without ever reaching
the unlink statement, so the temporary file is not removed. -/
theorem cups_temp_leak_cex :
    (print_raw_cups helloBytes false
        (RunOutcome.raised "lp executable not found")).tempDeleted = false ∧
    (print_raw_cups helloBytes false
        (RunOutcome.raised "lp executable not found")).result =
      Except.error "lp executable not found" :=
  ⟨by decide, by decide⟩

/-- C9 amended: the temporary file is removed whenever the submission
command completes, whether its exit status is zero or not, but it is not
removed when the submission call raises; the exception is re-raised in both
failing cases. -/
theorem cups_temp_cleanup (data : List Nat) (with_cut : Bool) (run : RunOutcome) :
    (∀ rc stderr, run = RunOutcome.completed rc stderr →
      (print_raw_cups data with_cut run).tempDeleted = true) ∧
    (∀ msg, run = RunOutcome.raised msg →
      (print_raw_cups data with_cut run).tempDeleted = false ∧
      (print_raw_cups data with_cut run).result = Except.error msg) := by
  constructor
  · rintro rc stderr rfl
    simp only [print_raw_cups]
    split <;> rfl
  · rintro msg rfl
    exact ⟨rfl, rfl⟩

/-- C9 amended witness: a completed non-zero submission removes the file, a
raising submission leaks it. -/
theorem cups_temp_cleanup_witness :
    (print_raw_cups helloBytes true
        (RunOutcome.completed 1 "no such printer")).tempDeleted = true ∧
    (print_raw_cups helloBytes true (RunOutcome.raised "boom")).tempDeleted = false ∧
    (print_raw_cups helloBytes true (RunOutcome.raised "boom")).result =
      Except.error "boom" :=
  ⟨(cups_temp_cleanup helloBytes true (RunOutcome.completed 1 "no such printer")).1
      1 "no such printer" rfl,
   ((cups_temp_cleanup helloBytes true (RunOutcome.raised "boom")).2 "boom" rfl).1,
   ((cups_temp_cleanup helloBytes true (RunOutcome.raised "boom")).2 "boom" rfl).2⟩

end PrintFlow
